import Mathlib

/-!
Verification of the class-trait and response-handle layer of a USB device
stack (file src/class.rs). The handles `ControlIn` and `ControlOut` wrap the
control pipe and the decoded SETUP request; the `UsbClass` trait supplies
default callback bodies. The control pipe itself, the request value and the
descriptor writer types live in crate modules outside the sampled sources,
so those are modelled from the specification of the control pipe component
and marked as such in their doc comments.
-/

/-- Error kinds surfaced by the core, following the error-handling section of
the specification and the uses in src/class.rs. -/
inductive UsbError where
  | BufferOverflow
  | InvalidInterface
  | InvalidAlternateSetting

/-- Modelled from the spec: direction of a control request, decoded from the
SETUP packet (HostToDevice or DeviceToHost). -/
inductive Direction where
  | HostToDevice
  | DeviceToHost

/-- Modelled from the spec: recipient of a control request (device, interface
or endpoint). -/
inductive Recipient where
  | Device
  | Interface
  | Endpoint

/-- Modelled from the spec: request type of a control request (standard,
class or vendor). -/
inductive RequestType where
  | Standard
  | Class
  | Vendor

/-- Modelled from the spec: the immutable Request value decoded from a SETUP
packet (crate module control, not part of the sampled sources): direction,
recipient, request type, request code, two 16-bit parameters, and the
expected data-stage length. -/
structure Request where
  direction : Direction
  request_type : RequestType
  recipient : Recipient
  request : Nat
  value : Nat
  index : Nat
  length : Nat

/-- Modelled from the spec: the stage states of the control transfer. -/
inductive ControlState where
  | Idle
  | SetupReceived
  | DataStageIn
  | DataStageOut
  | StatusIn
  | StatusOut
  | Stalled
  | Complete

/-- Modelled from the spec: the control pipe (crate module control_pipe, not
part of the sampled sources). It owns a fixed transfer buffer reused across
transfers, records how many bytes the DATA stage delivered, the
host-requested data-stage length of the current transfer, the stage state,
and the bytes handed to the transport for the IN data stage. -/
structure ControlPipe where
  buf : List Nat
  rxLen : Nat
  reqLength : Nat
  state : ControlState
  sent : List Nat

/-- Modelled from the spec: the success path of an IN accept. The pipe takes
the new buffer contents and the produced length, truncates to the
host-requested length if the produced length exceeds it, hands the bytes to
the transport and completes the transfer. -/
def ControlPipe.commit_in (p : ControlPipe) (newBuf : List Nat) (len : Nat) :
    ControlPipe × Except UsbError Unit :=
  ({ p with buf := newBuf,
            sent := newBuf.take (min len p.reqLength),
            state := ControlState.Complete },
   Except.ok ())

/-- Modelled from the spec: the accept-IN primitive of the pipe. The caller
supplies a writer that is given the transfer buffer and returns the new
buffer contents and the written length. On an error from the writer the pipe
is left entirely unchanged and the error is returned; on success the pipe
commits the produced bytes. -/
def ControlPipe.accept_in (p : ControlPipe)
    (f : List Nat → Except UsbError (List Nat × Nat)) :
    ControlPipe × Except UsbError Unit :=
  match f p.buf with
  | Except.error e => (p, Except.error e)
  | Except.ok (newBuf, len) => p.commit_in newBuf len

/-- Modelled from the spec: the accept-IN-static primitive of the pipe. The
supplied bytes have a lifetime outlasting the transfer, so the pipe hands
them to the transport directly, skipping the transfer buffer entirely, and
completes the transfer. -/
def ControlPipe.accept_in_static (p : ControlPipe) (data : List Nat) :
    ControlPipe × Except UsbError Unit :=
  ({ p with sent := data.take p.reqLength, state := ControlState.Complete },
   Except.ok ())

/-- Modelled from the spec: the accept-OUT primitive of the pipe. It signals
acceptance of the already-buffered DATA-stage bytes, completes the STATUS
stage in the IN direction and finishes the transfer. -/
def ControlPipe.accept_out (p : ControlPipe) : ControlPipe × Except UsbError Unit :=
  ({ p with state := ControlState.Complete }, Except.ok ())

/-- Modelled from the spec: the reject primitive of the pipe. The pipe
transitions to Stalled; the hardware issues a STALL handshake. -/
def ControlPipe.reject (p : ControlPipe) : ControlPipe × Except UsbError Unit :=
  ({ p with state := ControlState.Stalled }, Except.ok ())

/-- Modelled from the spec: the data accessor of the pipe, a read-only view
of the DATA-stage bytes already received into the transfer buffer. -/
def ControlPipe.data (p : ControlPipe) : List Nat :=
  p.buf.take p.rxLen

/-- Handle for a control IN transfer (src/class.rs). It wraps an exclusive
reference to the control pipe and a shared reference to the request; the
references are embedded as values, and operations that mutate through the
borrow return the resulting pipe. -/
structure ControlIn where
  pipe : ControlPipe
  req : Request

/-- Gets the request from the SETUP packet (src/class.rs, ControlIn). -/
def ControlIn.request (x : ControlIn) : Request :=
  x.req

/-- Accepts the transfer with the supplied buffer (src/class.rs,
ControlIn). The closure passed to the pipe checks the payload against the
buffer length, fails with BufferOverflow when it does not fit, and otherwise
copies the payload over the start of the buffer and returns its length. -/
def ControlIn.accept_with (x : ControlIn) (data : List Nat) :
    ControlPipe × Except UsbError Unit :=
  x.pipe.accept_in (fun buf =>
    if data.length > buf.length then
      Except.error UsbError.BufferOverflow
    else
      Except.ok (data ++ buf.drop data.length, data.length))

/-- Accepts the transfer with the supplied static buffer (src/class.rs,
ControlIn). -/
def ControlIn.accept_with_static (x : ControlIn) (data : List Nat) :
    ControlPipe × Except UsbError Unit :=
  x.pipe.accept_in_static data

/-- Accepts the transfer with a callback that can write to the internal
buffer of the control pipe (src/class.rs, ControlIn). -/
def ControlIn.accept (x : ControlIn)
    (f : List Nat → Except UsbError (List Nat × Nat)) :
    ControlPipe × Except UsbError Unit :=
  x.pipe.accept_in f

/-- Rejects the transfer by stalling the pipe (src/class.rs, ControlIn). -/
def ControlIn.reject (x : ControlIn) : ControlPipe × Except UsbError Unit :=
  x.pipe.reject

/-- Handle for a control OUT transfer (src/class.rs). -/
structure ControlOut where
  pipe : ControlPipe
  req : Request

/-- Gets the request from the SETUP packet (src/class.rs, ControlOut). -/
def ControlOut.request (x : ControlOut) : Request :=
  x.req

/-- Gets the data from the data stage of the request (src/class.rs,
ControlOut). -/
def ControlOut.data (x : ControlOut) : List Nat :=
  x.pipe.data

/-- Accepts the transfer by responding to the status stage (src/class.rs,
ControlOut). -/
def ControlOut.accept (x : ControlOut) : ControlPipe × Except UsbError Unit :=
  x.pipe.accept_out

/-- Rejects the transfer by stalling the pipe (src/class.rs, ControlOut). -/
def ControlOut.reject (x : ControlOut) : ControlPipe × Except UsbError Unit :=
  x.pipe.reject

/-- Modelled from the spec: an interface number allocated by the external
allocator, consumed only as a lookup key. -/
structure InterfaceNumber where
  num : Nat

/-- Modelled from the spec: a string index allocated by the external
allocator, consumed only as a lookup key. -/
structure StringIndex where
  idx : Nat

/-- Modelled from the spec: the BOS descriptor writer, a bounded-capacity
sink accumulating descriptor bytes (crate module descriptor, not part of the
sampled sources); only its byte content is needed here. -/
structure BosWriter where
  capacity : Nat
  bytes : List Nat

/-- Default body of UsbClass.get_bos_descriptors (src/class.rs): ignores the
writer and returns Ok. The class state and the writer pass through
unchanged. -/
def UsbClass.default_get_bos_descriptors {S : Type} (s : S) (writer : BosWriter) :
    S × BosWriter × Except UsbError Unit :=
  (s, writer, Except.ok ())

/-- Default body of UsbClass.get_string (src/class.rs): ignores index and
language and returns None. -/
def UsbClass.default_get_string {S : Type} (s : S) (index : StringIndex)
    (lang_id : Nat) : Option String :=
  none

/-- Default body of UsbClass.set_alternate_setting (src/class.rs): ignores
both arguments and returns Err(InvalidInterface); the class state passes
through unchanged. -/
def UsbClass.default_set_alternate_setting {S : Type} (s : S)
    (interface : InterfaceNumber) (alt_setting : Nat) :
    S × Except UsbError Unit :=
  (s, Except.error UsbError.InvalidInterface)

/-- Default body of UsbClass.get_alternate_setting (src/class.rs): ignores
the interface and returns Err(InvalidInterface). -/
def UsbClass.default_get_alternate_setting {S : Type} (s : S)
    (interface : InterfaceNumber) : Except UsbError Nat :=
  Except.error UsbError.InvalidInterface

/-- Default body of UsbClass.control_out (src/class.rs): drops the handle
without invoking any of its operations, so the class state and the pipe the
handle borrows are unchanged. -/
def UsbClass.default_control_out {S : Type} (s : S) (xfer : ControlOut) :
    S × ControlPipe :=
  (s, xfer.pipe)

/-- Default body of UsbClass.control_in (src/class.rs): drops the handle
without invoking any of its operations, so the class state and the pipe the
handle borrows are unchanged. -/
def UsbClass.default_control_in {S : Type} (s : S) (xfer : ControlIn) :
    S × ControlPipe :=
  (s, xfer.pipe)

/-- C1: for every ControlIn handle and every payload longer than the pipe
transfer buffer, accept_with returns Err(BufferOverflow) and the pipe is
returned entirely unchanged: no bytes are copied into the transfer buffer
and the transfer state is whatever it was (in particular not completed, not
stalled). -/
theorem accept_with_overflow (pipe : ControlPipe) (req : Request)
    (data : List Nat) (h : pipe.buf.length < data.length) :
    ControlIn.accept_with ⟨pipe, req⟩ data
      = (pipe, Except.error UsbError.BufferOverflow) := by
  simp [ControlIn.accept_with, ControlPipe.accept_in, h]

/-- Witness for C1 at a one-byte buffer and a two-byte payload. -/
theorem accept_with_overflow_witness :
    ControlIn.accept_with
        ⟨⟨[0], 0, 0, ControlState.SetupReceived, []⟩,
         ⟨Direction.DeviceToHost, RequestType.Standard, Recipient.Device,
          6, 0, 0, 2⟩⟩
        [1, 2]
      = (⟨[0], 0, 0, ControlState.SetupReceived, []⟩,
         Except.error UsbError.BufferOverflow) :=
  accept_with_overflow _ _ _ (by decide)

/-- C3: for every payload that fits the transfer buffer, accept_with writes
exactly the payload into the first bytes of the buffer, leaves the rest of
the buffer as it was, reports the payload length to the accept-IN success
path of the pipe and returns its result. -/
theorem accept_with_fits (pipe : ControlPipe) (req : Request)
    (data : List Nat) (h : data.length ≤ pipe.buf.length) :
    ControlIn.accept_with ⟨pipe, req⟩ data
        = pipe.commit_in (data ++ pipe.buf.drop data.length) data.length
      ∧ (data ++ pipe.buf.drop data.length).take data.length = data
      ∧ (data ++ pipe.buf.drop data.length).drop data.length
          = pipe.buf.drop data.length := by
  refine ⟨?_, ?_, ?_⟩
  · simp [ControlIn.accept_with, ControlPipe.accept_in, Nat.not_lt.mpr h]
  · exact List.take_left data (pipe.buf.drop data.length)
  · exact List.drop_left data (pipe.buf.drop data.length)

/-- Witness for C3 at a three-byte buffer and a one-byte payload. -/
theorem accept_with_fits_witness :
    ControlIn.accept_with
        ⟨⟨[9, 9, 9], 0, 2, ControlState.SetupReceived, []⟩,
         ⟨Direction.DeviceToHost, RequestType.Standard, Recipient.Interface,
          6, 0, 0, 2⟩⟩
        [5]
        = ControlPipe.commit_in ⟨[9, 9, 9], 0, 2, ControlState.SetupReceived, []⟩
            (([5] : List Nat) ++ ([9, 9, 9] : List Nat).drop ([5] : List Nat).length)
            ([5] : List Nat).length
      ∧ (([5] : List Nat) ++ ([9, 9, 9] : List Nat).drop ([5] : List Nat).length).take
            ([5] : List Nat).length = [5]
      ∧ (([5] : List Nat) ++ ([9, 9, 9] : List Nat).drop ([5] : List Nat).length).drop
            ([5] : List Nat).length
          = ([9, 9, 9] : List Nat).drop ([5] : List Nat).length :=
  accept_with_fits _ _ _ (by decide)

/-- C4: the default bodies of UsbClass.control_in and UsbClass.control_out
only drop the handle: the class state and the control pipe (its state and
buffer included) come back exactly as they went in, which is the
pass-to-next-class behaviour. -/
theorem default_control_callbacks_noop {S : Type} (s : S) (pipe : ControlPipe)
    (reqi reqo : Request) :
    UsbClass.default_control_in s ⟨pipe, reqi⟩ = (s, pipe)
  ∧ UsbClass.default_control_out s ⟨pipe, reqo⟩ = (s, pipe) :=
  ⟨rfl, rfl⟩

/-- C5: for every interface number and alternate-setting value the default
bodies of UsbClass.set_alternate_setting and UsbClass.get_alternate_setting
return Err(InvalidInterface), and the setter passes the class state through
unchanged. -/
theorem default_alternate_setting_invalid_interface {S : Type} (s : S)
    (iface : InterfaceNumber) (alt : Nat) :
    UsbClass.default_set_alternate_setting s iface alt
        = (s, Except.error UsbError.InvalidInterface)
  ∧ UsbClass.default_get_alternate_setting s iface
        = Except.error UsbError.InvalidInterface :=
  ⟨rfl, rfl⟩

/-- C6: over the same pipe, ControlIn.reject and ControlOut.reject are both
exactly the reject primitive of the pipe, with no other effect, so rejection
does not depend on the transfer direction. -/
theorem reject_same_primitive (pipe : ControlPipe) (reqi reqo : Request) :
    ControlIn.reject ⟨pipe, reqi⟩ = ControlPipe.reject pipe
  ∧ ControlOut.reject ⟨pipe, reqo⟩ = ControlPipe.reject pipe :=
  ⟨rfl, rfl⟩

/-- C7: the non-terminal accessors are pure: request returns exactly the
Request the handle was constructed with on both handles, data returns the
data accessor of the pipe, is independent of the declared request length,
and its length is whatever the DATA stage delivered (capped by the buffer).
As Lean functions they produce no new pipe, so they modify nothing. -/
theorem request_data_accessors (pipe : ControlPipe) (req req2 : Request) :
    ControlIn.request ⟨pipe, req⟩ = req
  ∧ ControlOut.request ⟨pipe, req⟩ = req
  ∧ ControlOut.data ⟨pipe, req⟩ = ControlPipe.data pipe
  ∧ ControlOut.data ⟨pipe, req⟩ = ControlOut.data ⟨pipe, req2⟩
  ∧ (ControlOut.data ⟨pipe, req⟩).length = min pipe.rxLen pipe.buf.length := by
  refine ⟨rfl, rfl, rfl, rfl, ?_⟩
  simp [ControlOut.data, ControlPipe.data]

/-- C8: accept_with_static passes the slice directly to the
accept-IN-static primitive of the pipe, and that primitive leaves the
transfer buffer contents exactly as they were (no copy is performed). -/
theorem accept_with_static_skips_copy (pipe : ControlPipe) (req : Request)
    (data : List Nat) :
    ControlIn.accept_with_static ⟨pipe, req⟩ data
        = ControlPipe.accept_in_static pipe data
  ∧ (ControlPipe.accept_in_static pipe data).1.buf = pipe.buf :=
  ⟨rfl, rfl⟩

/-- C10: for every index and language the default body of
UsbClass.get_string returns None, and for every writer the default body of
UsbClass.get_bos_descriptors returns Ok while leaving the writer (its bytes
in particular) unchanged. -/
theorem default_string_and_bos {S : Type} (s : S) (idx : StringIndex)
    (lang : Nat) (w : BosWriter) :
    UsbClass.default_get_string s idx lang = none
  ∧ UsbClass.default_get_bos_descriptors s w = (s, w, Except.ok ())
  ∧ (UsbClass.default_get_bos_descriptors s w).2.1.bytes = w.bytes :=
  ⟨rfl, rfl, rfl⟩
